import Mathlib

/-!
Verification development for the TradingView webhook service
(`tombryson/TradingViewAPI_serivce`).

The repository contains several Go iterations of the same service.  Each
iteration is embedded separately and named after its place in the sources:

* `MainA` — the single-signal variant in `src/main.go` (first unit): payload
  `{ticker, signal, analystPriceTarget}` with the flexible `NullableFloat64`
  JSON decoding, stored in `securities(ticker, signal, analyst_price_target,
  date_updated)`.
* `MainB` — the multi-signal variant in `src/main.go` (second unit): payload
  `{ticker, signals:[{indicator, signal}]}` merged by `updateIndicators` via a
  single `INSERT ... ON CONFLICT ... COALESCE(excluded.col, col)` statement.
* `P2A` — the first unit of `src/unnamed/part_002`: single-indicator payload
  `{ticker, indicator, signal, comment}`, merged by `updateIndicator` through
  dynamically selected columns; the Google-Sheets reconciler and the
  per-ticker lock registry are commented out in this unit.
* `P2B` — the second unit of `src/unnamed/part_002`: like `P2A` with a
  nine-column schema, plus the live `updateGoogleSheet` reconciler called via
  the overridable `updateGoogleSheetFn` after a successful local merge.

Timestamps (`CURRENT_TIMESTAMP` / `time.Now()`) are modelled as an explicit
`now : Nat` argument.  SQLite tables keyed by the `ticker` primary key are
modelled as association lists `List (String × row)`; an `ON CONFLICT` upsert
replaces the row of the conflicting key in place and otherwise appends.
JSON numbers are modelled as rationals and raw JSON tokens by the inductive
`JsonValue`.  HTTP responses are status/body pairs.
-/

namespace TV

/-- An HTTP response as produced by `http.Error` / the success path:
a status code and a body. -/
structure HttpResponse where
  status : Nat
  body : String
deriving Repr, DecidableEq

/-- A client-error response in the HTTP sense: a 4xx status. -/
def HttpResponse.isClientError (r : HttpResponse) : Prop :=
  400 ≤ r.status ∧ r.status < 500

instance (r : HttpResponse) : Decidable r.isClientError := by
  unfold HttpResponse.isClientError; infer_instance

/-- A raw JSON value/token, as seen by `UnmarshalJSON` on the bytes of one
field.  Numbers are modelled as rationals; composite tokens (arrays, objects)
and booleans carry no payload because the code never looks inside them. -/
inductive JsonValue
  | null
  | str (s : String)
  | num (q : ℚ)
  | boolean (b : Bool)
  | arr
  | obj
deriving Repr, DecidableEq

/-- `json.Unmarshal(data, &val)` for a Go `float64` target: succeeds exactly
on a numeric literal, fails on every other token. -/
def jsonUnmarshalFloat64 : JsonValue → Except String ℚ
  | JsonValue.num q => Except.ok q
  | _ => Except.error "json: cannot unmarshal value into float64"

namespace MainA

/-- `NullableFloat64.UnmarshalJSON` from `src/main.go` (first unit):
`null` and the empty-string token become `nil`; a failed numeric parse is
logged and also becomes `nil`; only a numeric literal yields a value.
The method never returns an error. -/
def NullableFloat64.unmarshalJSON (data : JsonValue) : Except String (Option ℚ) :=
  if data = JsonValue.null ∨ data = JsonValue.str "" then
    Except.ok none
  else
    match jsonUnmarshalFloat64 data with
    | Except.error _ => Except.ok none
    | Except.ok v => Except.ok (some v)

/-- A decoded `TradingViewAlert` of the single-signal variant
(`analystPriceTarget` already passed through `NullableFloat64`). -/
structure TradingViewAlert where
  ticker : String
  signal : String
  analystPriceTarget : Option ℚ
deriving Repr, DecidableEq

/-- The alert as raw JSON fields, before `json.Decode` runs the custom
`UnmarshalJSON` on `analystPriceTarget`. -/
structure RawAlert where
  ticker : String
  signal : String
  analystPriceTarget : JsonValue
deriving Repr, DecidableEq

/-- Decoding the POST body: the only custom field decoder is
`NullableFloat64.UnmarshalJSON`; its error (never produced) would fail the
whole decode. -/
def decodeAlert (r : RawAlert) : Except String TradingViewAlert :=
  match NullableFloat64.unmarshalJSON r.analystPriceTarget with
  | Except.error e => Except.error e
  | Except.ok pt => Except.ok ⟨r.ticker, r.signal, pt⟩

/-- One row of the `securities` table of the single-signal variant
(`ticker` is the key of the enclosing association list). -/
structure Security where
  signal : String
  analyst_price_target : Option ℚ
  date_updated : Nat
deriving Repr, DecidableEq

/-- The `securities` table, keyed by the `ticker` primary key. -/
abbrev Table := List (String × Security)

/-- `SELECT ... WHERE ticker = ?`: the row of the first (only) entry whose
key equals the ticker. -/
def lookup : Table → String → Option Security
  | [], _ => none
  | p :: rest, k => if p.1 = k then some p.2 else lookup rest k

/-- The `INSERT ... ON CONFLICT(ticker) DO UPDATE` statement of the POST
handler: replace the conflicting row (all three data columns are overwritten
by `excluded` values) or insert a fresh one. -/
def upsert : Table → String → String → Option ℚ → Nat → Table
  | [], k, s, pt, now => [(k, ⟨s, pt, now⟩)]
  | p :: rest, k, s, pt, now =>
    if p.1 = k then (p.1, ⟨s, pt, now⟩) :: rest
    else p :: upsert rest k s pt now

/-- The POST branch of `handleWebhook` in `src/main.go` (first unit), after a
successful JSON decode: validate `ticker`/`signal` non-empty, then run the
upsert and answer 200. -/
def handleWebhookPost (t : Table) (alert : TradingViewAlert) (now : Nat) :
    Table × HttpResponse :=
  if alert.ticker = "" ∨ alert.signal = "" then
    (t, ⟨400, "Missing ticker or signal"⟩)
  else
    (upsert t alert.ticker alert.signal alert.analystPriceTarget now,
     ⟨200, "Webhook processed successfully"⟩)

/-- The POST branch starting from the raw JSON fields: a decode error answers
400 without touching the table. -/
def handleWebhookPostRaw (t : Table) (r : RawAlert) (now : Nat) :
    Table × HttpResponse :=
  match decodeAlert r with
  | Except.error _ => (t, ⟨400, "Invalid payload"⟩)
  | Except.ok alert => handleWebhookPost t alert now

end MainA

/-- `COALESCE(x, y)` in SQLite: the first non-NULL argument. -/
def coalesce (x : Option String) (y : String) : String := x.getD y

/-- A Go `string` bound as an SQL parameter by `database/sql` is always a
non-NULL TEXT value. -/
def sqlParam (s : String) : Option String := some s

namespace MainB

/-- One entry of the `signals` list of the multi-signal payload. -/
structure Signal where
  indicator : String
  signal : String
deriving Repr, DecidableEq

/-- The multi-signal `TradingViewAlert` of `src/main.go` (second unit). -/
structure TradingViewAlert where
  ticker : String
  signals : List Signal
deriving Repr, DecidableEq

/-- The `allowedIndicators` map of `updateIndicators`: exactly the nine
indicator column names. -/
def allowedIndicators : String → Bool
  | "sma_strategy" => true
  | "occ" => true
  | "adaptive_supertrend" => true
  | "range_filter_daily" => true
  | "range_filter_weekly" => true
  | "shinohara_intensity_ratio" => true
  | "oscillator_daily" => true
  | "oscillator_weekly" => true
  | "oscillator_color" => true
  | _ => false

/-- The `values` map of `updateIndicators`: one Go string per indicator
column. -/
structure Values where
  sma_strategy : String
  occ : String
  adaptive_supertrend : String
  range_filter_daily : String
  range_filter_weekly : String
  shinohara_intensity_ratio : String
  oscillator_daily : String
  oscillator_weekly : String
  oscillator_color : String
deriving Repr, DecidableEq

/-- The initial `values` map: every indicator column defaults to `""`. -/
def defaultValues : Values := ⟨"", "", "", "", "", "", "", "", ""⟩

/-- `values[signal.Indicator] = signal.Signal`.  The caller guards the write
with `allowedIndicators`, so the catch-all branch (an unknown key) is
unreachable there and leaves the map unchanged. -/
def setValue (v : Values) (name val : String) : Values :=
  match name with
  | "sma_strategy" => { v with sma_strategy := val }
  | "occ" => { v with occ := val }
  | "adaptive_supertrend" => { v with adaptive_supertrend := val }
  | "range_filter_daily" => { v with range_filter_daily := val }
  | "range_filter_weekly" => { v with range_filter_weekly := val }
  | "shinohara_intensity_ratio" => { v with shinohara_intensity_ratio := val }
  | "oscillator_daily" => { v with oscillator_daily := val }
  | "oscillator_weekly" => { v with oscillator_weekly := val }
  | "oscillator_color" => { v with oscillator_color := val }
  | _ => v

/-- The signal loop of `updateIndicators`: a disallowed indicator is logged
(`"Invalid indicator: ..."`) and skipped (`continue`); an allowed one
overwrites its slot in the `values` map.  Returns the final map and the
warnings in order. -/
def applySignals : List Signal → Values → Values × List String
  | [], v => (v, [])
  | s :: rest, v =>
    if allowedIndicators s.indicator then
      applySignals rest (setValue v s.indicator s.signal)
    else
      let r := applySignals rest v
      (r.1, ("Invalid indicator: " ++ s.indicator) :: r.2)

/-- One row of the nine-indicator `securities` table of this variant. -/
structure Security where
  sma_strategy : String
  occ : String
  adaptive_supertrend : String
  range_filter_daily : String
  range_filter_weekly : String
  shinohara_intensity_ratio : String
  oscillator_daily : String
  oscillator_weekly : String
  oscillator_color : String
  date_updated : Nat
deriving Repr, DecidableEq

abbrev Table := List (String × Security)

def lookup : Table → String → Option Security
  | [], _ => none
  | p :: rest, k => if p.1 = k then some p.2 else lookup rest k

/-- The freshly inserted row of the `INSERT` branch: all nine bound values
plus the explicit `date_updated`. -/
def insertRow (v : Values) (now : Nat) : Security :=
  ⟨v.sma_strategy, v.occ, v.adaptive_supertrend, v.range_filter_daily,
   v.range_filter_weekly, v.shinohara_intensity_ratio, v.oscillator_daily,
   v.oscillator_weekly, v.oscillator_color, now⟩

/-- The `DO UPDATE SET col = COALESCE(excluded.col, col)` branch.  Every
`excluded.col` is a bound Go string, hence non-NULL (`sqlParam`), so each
`COALESCE` resolves to the excluded value. -/
def mergeRow (v : Values) (old : Security) (now : Nat) : Security :=
  ⟨coalesce (sqlParam v.sma_strategy) old.sma_strategy,
   coalesce (sqlParam v.occ) old.occ,
   coalesce (sqlParam v.adaptive_supertrend) old.adaptive_supertrend,
   coalesce (sqlParam v.range_filter_daily) old.range_filter_daily,
   coalesce (sqlParam v.range_filter_weekly) old.range_filter_weekly,
   coalesce (sqlParam v.shinohara_intensity_ratio) old.shinohara_intensity_ratio,
   coalesce (sqlParam v.oscillator_daily) old.oscillator_daily,
   coalesce (sqlParam v.oscillator_weekly) old.oscillator_weekly,
   coalesce (sqlParam v.oscillator_color) old.oscillator_color,
   now⟩

/-- The single transactional `INSERT ... ON CONFLICT(ticker) DO UPDATE`
statement of `updateIndicators`. -/
def upsert : Table → String → Values → Nat → Table
  | [], k, v, now => [(k, insertRow v now)]
  | p :: rest, k, v, now =>
    if p.1 = k then (p.1, mergeRow v p.2 now) :: rest
    else p :: upsert rest k v now

/-- `updateIndicators` from `src/main.go` (second unit): fold the signal list
into the `values` map (collecting warnings for invalid indicators), then run
the upsert in one transaction.  Only environmental failures (I/O) can make it
fail, so the embedding is total; the warning list mirrors the log output. -/
def updateIndicators (t : Table) (alert : TradingViewAlert) (now : Nat) :
    Table × List String :=
  let r := applySignals alert.signals defaultValues
  (upsert t alert.ticker r.1 now, r.2)

end MainB

namespace P2A

/-- The single-indicator `TradingViewAlert` of `src/unnamed/part_002`
(first unit). -/
structure TradingViewAlert where
  ticker : String
  indicator : String
  signal : String
  comment : String
deriving Repr, DecidableEq

/-- The eight indicator columns of this unit's `securities` schema.  The
dynamic `fmt.Sprintf` column selection, guarded by the `allowedIndicators`
map, always names one of these. -/
inductive Col
  | sma_strategy
  | occ
  | adaptive_supertrend
  | range_filter_daily
  | range_filter_weekly
  | shinohara_intensity_ratio
  | oscillator_daily
  | oscillator_weekly
deriving Repr, DecidableEq

/-- The `allowedIndicators` map together with the column the indicator name
selects in the generated SQL: the map's keys are exactly the eight column
names interpolated by `fmt.Sprintf`. -/
def colOfIndicator : String → Option Col
  | "sma_strategy" => some Col.sma_strategy
  | "occ" => some Col.occ
  | "adaptive_supertrend" => some Col.adaptive_supertrend
  | "range_filter_daily" => some Col.range_filter_daily
  | "range_filter_weekly" => some Col.range_filter_weekly
  | "shinohara_intensity_ratio" => some Col.shinohara_intensity_ratio
  | "oscillator_daily" => some Col.oscillator_daily
  | "oscillator_weekly" => some Col.oscillator_weekly
  | _ => none

/-- One row of this unit's `securities` table. -/
structure Security where
  sma_strategy : String
  occ : String
  adaptive_supertrend : String
  range_filter_daily : String
  range_filter_weekly : String
  shinohara_intensity_ratio : String
  oscillator_daily : String
  oscillator_weekly : String
  date_updated : Nat
deriving Repr, DecidableEq

/-- Write one indicator column of a row. -/
def Security.setCol (r : Security) (c : Col) (v : String) : Security :=
  match c with
  | Col.sma_strategy => { r with sma_strategy := v }
  | Col.occ => { r with occ := v }
  | Col.adaptive_supertrend => { r with adaptive_supertrend := v }
  | Col.range_filter_daily => { r with range_filter_daily := v }
  | Col.range_filter_weekly => { r with range_filter_weekly := v }
  | Col.shinohara_intensity_ratio => { r with shinohara_intensity_ratio := v }
  | Col.oscillator_daily => { r with oscillator_daily := v }
  | Col.oscillator_weekly => { r with oscillator_weekly := v }

/-- Read one indicator column of a row. -/
def Security.getCol (r : Security) : Col → String
  | Col.sma_strategy => r.sma_strategy
  | Col.occ => r.occ
  | Col.adaptive_supertrend => r.adaptive_supertrend
  | Col.range_filter_daily => r.range_filter_daily
  | Col.range_filter_weekly => r.range_filter_weekly
  | Col.shinohara_intensity_ratio => r.shinohara_intensity_ratio
  | Col.oscillator_daily => r.oscillator_daily
  | Col.oscillator_weekly => r.oscillator_weekly

/-- The column defaults of the schema: every indicator column defaults to
`''` (the `date_updated` placeholder is overwritten on every insert, which
always supplies it explicitly). -/
def emptyRow : Security := ⟨"", "", "", "", "", "", "", "", 0⟩

abbrev Table := List (String × Security)

def lookup : Table → String → Option Security
  | [], _ => none
  | p :: rest, k => if p.1 = k then some p.2 else lookup rest k

/-- The generated `INSERT INTO securities (ticker, col, date_updated) ...
ON CONFLICT(ticker) DO UPDATE SET col = ?, date_updated = ?` statement:
a fresh row takes the schema defaults for the unnamed columns; a conflicting
row has only the selected column and `date_updated` overwritten. -/
def upsert : Table → String → Col → String → Nat → Table
  | [], k, c, v, now => [(k, { emptyRow.setCol c v with date_updated := now })]
  | p :: rest, k, c, v, now =>
    if p.1 = k then (p.1, { p.2.setCol c v with date_updated := now }) :: rest
    else p :: upsert rest k c v now

/-- `updateIndicator` from `src/unnamed/part_002` (first unit): reject an
indicator outside the allow-list before any storage access, otherwise run
the single upsert statement. -/
def updateIndicator (t : Table) (alert : TradingViewAlert) (now : Nat) :
    Except String Table :=
  match colOfIndicator alert.indicator with
  | none => Except.error ("invalid indicator: " ++ alert.indicator)
  | some c => Except.ok (upsert t alert.ticker c alert.signal now)

/-- The POST branch of this unit's `handleWebhook` (after a successful JSON
decode): any `updateIndicator` error is answered with
`http.StatusInternalServerError` (500). -/
def handleWebhookPost (t : Table) (alert : TradingViewAlert) (now : Nat) :
    Table × HttpResponse :=
  match updateIndicator t alert now with
  | Except.error e => (t, ⟨500, "Failed to update database: " ++ e⟩)
  | Except.ok t2 => (t2, ⟨200, "Webhook processed successfully"⟩)

end P2A

namespace P2B

/-- The single-indicator `TradingViewAlert` of `src/unnamed/part_002`
(second unit). -/
structure TradingViewAlert where
  ticker : String
  indicator : String
  signal : String
  comment : String
deriving Repr, DecidableEq

/-- The nine indicator columns of this unit's `securities` schema. -/
inductive Col
  | sma_strategy
  | occ
  | adaptive_supertrend
  | range_filter_daily
  | range_filter_weekly
  | pmax
  | shinohara_intensity_ratio
  | oscillators_daily_weekly
  | monthly_oscillator
deriving Repr, DecidableEq

/-- The `allowedIndicators` map of this unit together with the column the
indicator name selects in the generated SQL. -/
def colOfIndicator : String → Option Col
  | "sma_strategy" => some Col.sma_strategy
  | "occ" => some Col.occ
  | "adaptive_supertrend" => some Col.adaptive_supertrend
  | "range_filter_daily" => some Col.range_filter_daily
  | "range_filter_weekly" => some Col.range_filter_weekly
  | "pmax" => some Col.pmax
  | "shinohara_intensity_ratio" => some Col.shinohara_intensity_ratio
  | "oscillators_daily_weekly" => some Col.oscillators_daily_weekly
  | "monthly_oscillator" => some Col.monthly_oscillator
  | _ => none

/-- One row of this unit's `securities` table. -/
structure Security where
  sma_strategy : String
  occ : String
  adaptive_supertrend : String
  range_filter_daily : String
  range_filter_weekly : String
  pmax : String
  shinohara_intensity_ratio : String
  oscillators_daily_weekly : String
  monthly_oscillator : String
  date_updated : Nat
deriving Repr, DecidableEq

/-- Write one indicator column of a row. -/
def Security.setCol (r : Security) (c : Col) (v : String) : Security :=
  match c with
  | Col.sma_strategy => { r with sma_strategy := v }
  | Col.occ => { r with occ := v }
  | Col.adaptive_supertrend => { r with adaptive_supertrend := v }
  | Col.range_filter_daily => { r with range_filter_daily := v }
  | Col.range_filter_weekly => { r with range_filter_weekly := v }
  | Col.pmax => { r with pmax := v }
  | Col.shinohara_intensity_ratio => { r with shinohara_intensity_ratio := v }
  | Col.oscillators_daily_weekly => { r with oscillators_daily_weekly := v }
  | Col.monthly_oscillator => { r with monthly_oscillator := v }

/-- The column defaults of the schema. -/
def emptyRow : Security := ⟨"", "", "", "", "", "", "", "", "", 0⟩

abbrev Table := List (String × Security)

def lookup : Table → String → Option Security
  | [], _ => none
  | p :: rest, k => if p.1 = k then some p.2 else lookup rest k

/-- The generated upsert statement of this unit's `updateIndicator`. -/
def upsert : Table → String → Col → String → Nat → Table
  | [], k, c, v, now => [(k, { emptyRow.setCol c v with date_updated := now })]
  | p :: rest, k, c, v, now =>
    if p.1 = k then (p.1, { p.2.setCol c v with date_updated := now }) :: rest
    else p :: upsert rest k c v now

/-- `updateIndicator` from `src/unnamed/part_002` (second unit). -/
def updateIndicator (t : Table) (alert : TradingViewAlert) (now : Nat) :
    Except String Table :=
  match colOfIndicator alert.indicator with
  | none => Except.error ("invalid indicator: " ++ alert.indicator)
  | some c => Except.ok (upsert t alert.ticker c alert.signal now)

/-- The `SELECT ticker, ..., date_updated FROM securities WHERE ticker = ?`
row projected into the ordered cell list sent to the sheet: the ticker
identity first, then the nine indicator columns and the timestamp. -/
def rowData (ticker : String) (r : Security) : List String :=
  [ticker, r.sma_strategy, r.occ, r.adaptive_supertrend, r.range_filter_daily,
   r.range_filter_weekly, r.pmax, r.shinohara_intensity_ratio,
   r.oscillators_daily_weekly, r.monthly_oscillator, toString r.date_updated]

/-- The row-discovery loop of `updateGoogleSheet` over the `Sheet2!A2:A`
response: the first non-empty row whose first cell equals the raw ticker
yields `i + 2` (the range starts at sheet row 2); otherwise `-1`.
`i` is the running loop index. -/
def scanRows (ticker : String) : List (List String) → Nat → Int
  | [], _ => -1
  | row :: rest, i =>
    match row with
    | [] => scanRows ticker rest (i + 1)
    | c :: _ => if c = ticker then (i : Int) + 2 else scanRows ticker rest (i + 1)

/-- `updateGoogleSheet` from `src/unnamed/part_002` (second unit), with the
sheet modelled as the list of rows from row 2 down.  Read the ticker's local
record (an absent row is a scan error), discover its sheet row by the raw
string comparison `fmt.Sprintf("%v", r[0]) == ticker`, then either overwrite
the discovered row in place or append the full column set. -/
def updateGoogleSheet (t : Table) (ticker : String)
    (sheet : List (List String)) : Except String (List (List String)) :=
  match lookup t ticker with
  | none => Except.error "sql: no rows in result set"
  | some r =>
    let d := rowData ticker r
    let rowIndex := scanRows ticker sheet 0
    if rowIndex = -1 then
      Except.ok (sheet ++ [d])
    else
      Except.ok (sheet.set (rowIndex - 2).toNat d)

/-- The POST branch of this unit's `handleWebhook`: merge locally first, then
call the sheet reconciler through the overridable package-level
`updateGoogleSheetFn`; each failure is answered with its own 500 message. -/
def handleWebhookPost (t : Table) (alert : TradingViewAlert) (now : Nat)
    (updateGoogleSheetFn : Table → String → Except String Unit) :
    Table × HttpResponse :=
  match updateIndicator t alert now with
  | Except.error e => (t, ⟨500, "Failed to update database: " ++ e⟩)
  | Except.ok t2 =>
    match updateGoogleSheetFn t2 alert.ticker with
    | Except.error e => (t2, ⟨500, "Failed to update Google Sheet: " ++ e⟩)
    | Except.ok _ => (t2, ⟨200, "Webhook processed successfully"⟩)

end P2B

namespace SpecModel

/-- Modelled from the spec: the per-ticker record as the Transition Tracker
sees it — the primary signal value, the transition timestamp, and the
last-modified timestamp.  No schema in `src/` declares a transition-timestamp
column (every `initDB` variant has only `date_updated`), so this record and
the operations on it are taken from spec §3 and §4.3. -/
structure SpecRecord where
  signal : String
  transition : Option Nat
  dateUpdated : Nat
deriving Repr, DecidableEq

/-- Modelled from the spec (§4.3, missing from `src/`): the transition
timestamp after one update.  `upd` is the update's primary signal value
(`none` when no signal is supplied).  Set to `now` exactly when the supplied
value differs from the stored one, or when the ticker is new and a signal is
supplied; otherwise carried forward unchanged. -/
def transitionAfter (prev : Option SpecRecord) (upd : Option String)
    (now : Nat) : Option Nat :=
  match upd with
  | none =>
    match prev with
    | none => none
    | some r => r.transition
  | some s =>
    match prev with
    | none => some now
    | some r => if r.signal = s then r.transition else some now

/-- Modelled from the spec (§4.2–4.3, missing from `src/`): one merge of a
primary-signal update into the per-ticker record.  The signal keeps its
stored value when the update supplies none, the last-modified timestamp
always advances to `now`, and the transition timestamp follows
`transitionAfter`. -/
def applyUpdate (prev : Option SpecRecord) (upd : Option String)
    (now : Nat) : SpecRecord :=
  { signal :=
      match upd with
      | some s => s
      | none =>
        match prev with
        | some r => r.signal
        | none => ""
  , transition := transitionAfter prev upd now
  , dateUpdated := now }

/-- The ticker normalization the spec prescribes for identity comparison
(trim whitespace, fold case), as in the commented-out reconciler's
`strings.TrimSpace(strings.ToUpper(ticker))`, implemented on the character
list: upper-case every character, then drop whitespace from both ends. -/
def normalizeTicker (s : String) : String :=
  ⟨(((s.data.map Char.toUpper).dropWhile Char.isWhitespace).reverse.dropWhile
      Char.isWhitespace).reverse⟩

/-- The row-discovery loop as the spec words it: compare *normalized*
identities. -/
def scanRowsNormalized (ticker : String) : List (List String) → Nat → Int
  | [], _ => -1
  | row :: rest, i =>
    match row with
    | [] => scanRowsNormalized ticker rest (i + 1)
    | c :: _ =>
      if normalizeTicker c = normalizeTicker ticker then (i : Int) + 2
      else scanRowsNormalized ticker rest (i + 1)

/-- The reconciler as the spec words it (§4.4 steps 1–3): like
`P2B.updateGoogleSheet` but with the identity comparison normalized before
matching.  Kept solely to compare the source's reconciler against the spec's
wording. -/
def updateGoogleSheetNormalized (t : P2B.Table) (ticker : String)
    (sheet : List (List String)) : Except String (List (List String)) :=
  match P2B.lookup t ticker with
  | none => Except.error "sql: no rows in result set"
  | some r =>
    let d := P2B.rowData ticker r
    let rowIndex := scanRowsNormalized ticker sheet 0
    if rowIndex = -1 then
      Except.ok (sheet ++ [d])
    else
      Except.ok (sheet.set (rowIndex - 2).toNat d)

end SpecModel

namespace Recon

/-- One in-flight reconciliation call, reduced to its two steps against the
external sheet: the `Values.Get` scan (recording the discovered `rowIndex`)
and the `Append`/`Update` write.  `rowData` is the projected local record the
call carries. -/
structure Proc where
  ticker : String
  rowData : List String
  scanned : Option Int
  written : Bool
deriving Repr, DecidableEq

/-- One step of a reconciliation call against the sheet: first the scan
(compute `rowIndex` from the current sheet, exactly as
`P2B.updateGoogleSheet` does), then the write (append on `-1`, else
overwrite in place); a finished call steps idly. -/
def step (sheet : List (List String)) (p : Proc) :
    List (List String) × Proc :=
  match p.scanned with
  | none => (sheet, { p with scanned := some (P2B.scanRows p.ticker sheet 0) })
  | some idx =>
    if p.written then (sheet, p)
    else if idx = -1 then (sheet ++ [p.rowData], { p with written := true })
    else (sheet.set (idx - 2).toNat p.rowData, { p with written := true })

/-- Run a set of concurrent reconciliation calls under a schedule: each entry
of `sched` names the process that performs its next step. -/
def runSched : List (List String) → List Proc → List Nat →
    List (List String) × List Proc
  | sheet, ps, [] => (sheet, ps)
  | sheet, ps, i :: rest =>
    match ps[i]? with
    | none => runSched sheet ps rest
    | some p =>
      let r := step sheet p
      runSched r.1 (ps.set i r.2) rest

/-- Whether one sheet row carries the given ticker identity
(`len(r) > 0 && r[0] == ticker`). -/
def matchesTicker (k : String) : List String → Bool
  | [] => false
  | c :: _ => decide (c = k)

/-- The number of sheet rows carrying the given ticker identity. -/
def countTickerRows (sheet : List (List String)) (k : String) : Nat :=
  sheet.countP (matchesTicker k)

/-- Modelled from the spec (§4.4/§9) and the commented-out `getTickerLock`
registry: with the per-ticker mutex held for the whole discovery+write, the
`n` reconciliation calls for one ticker execute back to back — each call is
one whole `updateGoogleSheet` against the sheet the previous call left. -/
def runSerialized (t : P2B.Table) (k : String) :
    Nat → List (List String) → Except String (List (List String))
  | 0, sheet => Except.ok sheet
  | n + 1, sheet =>
    match P2B.updateGoogleSheet t k sheet with
    | Except.error e => Except.error e
    | Except.ok sheet2 => runSerialized t k n sheet2

end Recon

/-! ## Helper lemmas and claim theorems -/

namespace MainA

theorem lookupA_upsert_self (t : Table) (k s : String) (pt : Option ℚ) (now : Nat) :
    lookup (upsert t k s pt now) k = some ⟨s, pt, now⟩ := by
  induction t with
  | nil => simp [upsert, lookup]
  | cons p rest ih =>
    by_cases h : p.1 = k
    · simp [upsert, lookup, h]
    · simp [upsert, lookup, h, ih]

theorem lookupA_upsert_other (t : Table) (k k' s : String) (pt : Option ℚ)
    (now : Nat) (h : k' ≠ k) :
    lookup (upsert t k s pt now) k' = lookup t k' := by
  induction t with
  | nil => simp [upsert, lookup, Ne.symm h]
  | cons p rest ih =>
    by_cases hp : p.1 = k
    · subst hp
      simp [upsert, lookup, Ne.symm h]
    · simp [upsert, lookup, hp, ih]

end MainA

namespace MainB

theorem lookupB_upsert_self (t : Table) (k : String) (v : Values) (now : Nat) :
    lookup (upsert t k v now) k = some (insertRow v now) := by
  induction t with
  | nil => simp [upsert, lookup]
  | cons p rest ih =>
    by_cases h : p.1 = k
    · simp [upsert, lookup, h, mergeRow, insertRow, coalesce, sqlParam]
    · simp [upsert, lookup, h, ih]

theorem lookupB_upsert_other (t : Table) (k k' : String) (v : Values)
    (now : Nat) (h : k' ≠ k) :
    lookup (upsert t k v now) k' = lookup t k' := by
  induction t with
  | nil => simp [upsert, lookup, Ne.symm h]
  | cons p rest ih =>
    by_cases hp : p.1 = k
    · subst hp
      simp [upsert, lookup, Ne.symm h]
    · simp [upsert, lookup, hp, ih]

theorem applySignals_filter (sigs : List Signal) (v : Values) :
    (applySignals sigs v).1
      = (applySignals (sigs.filter (fun s => allowedIndicators s.indicator)) v).1 := by
  induction sigs generalizing v with
  | nil => rfl
  | cons s rest ih =>
    by_cases h : allowedIndicators s.indicator
    · simp [applySignals, h, List.filter, ih]
    · simp [applySignals, h, List.filter, ih]

theorem applySignals_warnings (sigs : List Signal) (v : Values) :
    (applySignals sigs v).2
      = (sigs.filter (fun s => ¬ allowedIndicators s.indicator)).map
          (fun s => "Invalid indicator: " ++ s.indicator) := by
  induction sigs generalizing v with
  | nil => rfl
  | cons s rest ih =>
    by_cases h : allowedIndicators s.indicator
    · simp [applySignals, h, List.filter, ih]
    · simp [applySignals, h, List.filter, ih]

end MainB

namespace P2A

theorem setCol_setCol (r : Security) (c : Col) (v : String) :
    (r.setCol c v).setCol c v = r.setCol c v := by
  cases c <;> rfl

theorem setCol_date (r : Security) (c : Col) (v : String) (n : Nat) :
    Security.setCol { r with date_updated := n } c v
      = { r.setCol c v with date_updated := n } := by
  cases c <;> rfl

theorem getCol_setCol_other (r : Security) (c c' : Col) (v : String)
    (h : c' ≠ c) : (r.setCol c v).getCol c' = r.getCol c' := by
  cases c <;> cases c' <;> first
    | exact absurd rfl h
    | rfl

theorem lookupP2A_upsert_self (t : Table) (k : String) (c : Col) (v : String)
    (now : Nat) :
    lookup (upsert t k c v now) k
      = some { (match lookup t k with
                | none => emptyRow
                | some r => r).setCol c v with date_updated := now } := by
  induction t with
  | nil => simp [upsert, lookup]
  | cons p rest ih =>
    by_cases h : p.1 = k
    · simp [upsert, lookup, h]
    · simp [upsert, lookup, h, ih]

theorem lookupP2A_upsert_other (t : Table) (k k' : String) (c : Col) (v : String)
    (now : Nat) (h : k' ≠ k) :
    lookup (upsert t k c v now) k' = lookup t k' := by
  induction t with
  | nil => simp [upsert, lookup, Ne.symm h]
  | cons p rest ih =>
    by_cases hp : p.1 = k
    · subst hp
      simp [upsert, lookup, Ne.symm h]
    · simp [upsert, lookup, hp, ih]

theorem reapply_row (x : Security) (c : Col) (v : String) (n1 n2 : Nat) :
    ({ Security.setCol { x.setCol c v with date_updated := n1 } c v with
        date_updated := n2 } : Security)
      = { ({ x.setCol c v with date_updated := n1 } : Security) with
          date_updated := n2 } := by
  cases c <;> rfl

end P2A

/-- The two 500 bodies of `P2B`'s POST handler never coincide: a
Google-Sheet failure is always distinguishable from a local database
failure, whatever the wrapped error messages are. -/
theorem sheetBody_ne_databaseBody (e e' : String) :
    "Failed to update Google Sheet: " ++ e ≠ "Failed to update database: " ++ e' := by
  intro h
  have hd := congrArg String.data h
  rw [String.data_append, String.data_append] at hd
  have h17 := congrArg (fun l => l[17]?) hd
  simp at h17

namespace P2B

theorem scanRows_step (k : String) (row : List String)
    (rest : List (List String)) (b : Nat) :
    scanRows k (row :: rest) b
      = if Recon.matchesTicker k row then (b : Int) + 2
        else scanRows k rest (b + 1) := by
  cases row with
  | nil => simp [scanRows, Recon.matchesTicker]
  | cons c cs =>
    by_cases hc : c = k <;> simp [scanRows, Recon.matchesTicker, hc]

theorem scanRows_eq_findIdx (k : String) (sheet : List (List String)) (b : Nat) :
    scanRows k sheet b
      = match sheet.findIdx? (Recon.matchesTicker k) b with
        | none => -1
        | some j => (j : Int) + 2 := by
  induction sheet generalizing b with
  | nil => rfl
  | cons row rest ih =>
    rw [scanRows_step, List.findIdx?_cons]
    by_cases hm : Recon.matchesTicker k row
    · simp [hm]
    · rw [if_neg hm, ih (b + 1)]
      simp [hm]

end P2B

namespace Recon

theorem scanRows_of_countP_zero (k : String) (sheet : List (List String))
    (h : sheet.countP (matchesTicker k) = 0) (b : Nat) :
    P2B.scanRows k sheet b = -1 := by
  induction sheet generalizing b with
  | nil => rfl
  | cons row rest ih =>
    rw [List.countP_cons] at h
    cases row with
    | nil =>
      exact ih (by omega) (b + 1)
    | cons c cs =>
      have hc : ¬ c = k := by
        intro hck
        simp [matchesTicker, hck] at h
      rw [show P2B.scanRows k ((c :: cs) :: rest) b
            = if c = k then (b : Int) + 2 else P2B.scanRows k rest (b + 1) from rfl]
      rw [if_neg hc]
      exact ih (by omega) (b + 1)

theorem scanRows_append (k : String) (s1 s2 : List (List String))
    (h : s1.countP (matchesTicker k) = 0) (b : Nat) :
    P2B.scanRows k (s1 ++ s2) b = P2B.scanRows k s2 (b + s1.length) := by
  induction s1 generalizing b with
  | nil => simp
  | cons row rest ih =>
    rw [List.countP_cons] at h
    have harg : b + 1 + rest.length = b + (rest.length + 1) := by omega
    cases row with
    | nil =>
      rw [show P2B.scanRows k (([] :: rest) ++ s2) b
            = P2B.scanRows k (rest ++ s2) (b + 1) from rfl]
      rw [ih (by omega) (b + 1)]
      simp [harg]
    | cons c cs =>
      have hc : ¬ c = k := by
        intro hck
        simp [matchesTicker, hck] at h
      rw [show P2B.scanRows k (((c :: cs) :: rest) ++ s2) b
            = if c = k then (b : Int) + 2 else P2B.scanRows k (rest ++ s2) (b + 1)
          from rfl]
      rw [if_neg hc, ih (by omega) (b + 1)]
      simp [harg]

theorem set_append_len {α : Type} (l1 l2 : List α) (a : α) :
    (l1 ++ l2).set l1.length a = l1 ++ l2.set 0 a := by
  induction l1 with
  | nil => simp
  | cons x xs ih => simp [List.set, ih]

theorem matchesTicker_rowData (k : String) (r : P2B.Security) :
    matchesTicker k (P2B.rowData k r) = true := by
  simp [matchesTicker, P2B.rowData]

theorem updateGoogleSheet_append (t : P2B.Table) (k : String)
    (r : P2B.Security) (sheet : List (List String))
    (hr : P2B.lookup t k = some r)
    (h0 : sheet.countP (matchesTicker k) = 0) :
    P2B.updateGoogleSheet t k sheet = Except.ok (sheet ++ [P2B.rowData k r]) := by
  unfold P2B.updateGoogleSheet
  rw [hr]
  simp [scanRows_of_countP_zero k sheet h0 0]

theorem updateGoogleSheet_stable (t : P2B.Table) (k : String)
    (r : P2B.Security) (sheet : List (List String))
    (hr : P2B.lookup t k = some r)
    (h0 : sheet.countP (matchesTicker k) = 0) :
    P2B.updateGoogleSheet t k (sheet ++ [P2B.rowData k r])
      = Except.ok (sheet ++ [P2B.rowData k r]) := by
  unfold P2B.updateGoogleSheet
  rw [hr]
  have hscan : P2B.scanRows k (sheet ++ [P2B.rowData k r]) 0
      = (sheet.length : Int) + 2 := by
    rw [scanRows_append k sheet _ h0 0]
    simp [P2B.scanRows, P2B.rowData]
  simp only [hscan]
  have hne : ¬ ((sheet.length : Int) + 2 = -1) := by omega
  rw [if_neg hne]
  have hidx : ((sheet.length : Int) + 2 - 2).toNat = sheet.length := by omega
  rw [hidx, set_append_len]
  rfl

theorem runSerialized_stable (t : P2B.Table) (k : String) (r : P2B.Security)
    (sheet : List (List String)) (m : Nat)
    (hr : P2B.lookup t k = some r)
    (h0 : sheet.countP (matchesTicker k) = 0) :
    runSerialized t k m (sheet ++ [P2B.rowData k r])
      = Except.ok (sheet ++ [P2B.rowData k r]) := by
  induction m with
  | zero => rfl
  | succ n ih =>
    unfold runSerialized
    rw [updateGoogleSheet_stable t k r sheet hr h0]
    exact ih

end Recon

/-! ## Claim theorems -/

/-- C1: the claim says `updateIndicators` leaves every indicator column not
named in the update at its previously stored value.  It does not: every SQL
parameter is a non-NULL Go string (`''` for unmentioned columns), so
`COALESCE(excluded.col, col)` always resolves to the excluded value and the
merge overwrites the unnamed columns with `''`.  Evaluated at the failing
input: merging `{AAPL, [sma_strategy=buy]}` and then `{AAPL, [occ=sell]}`
leaves `sma_strategy = ""` (the claim and the spec's §8 scenario require
`"buy"`), and applying the two updates in the opposite order yields a
different final record. -/
theorem C1_updateIndicators_clobbers_unnamed_columns :
    ((MainB.lookup
        (MainB.updateIndicators
          (MainB.updateIndicators [] ⟨"AAPL", [⟨"sma_strategy", "buy"⟩]⟩ 1).1
          ⟨"AAPL", [⟨"occ", "sell"⟩]⟩ 2).1
        "AAPL").map (fun r => (r.sma_strategy, r.occ))
      = some ("", "sell")) ∧
    ((MainB.lookup
        (MainB.updateIndicators
          (MainB.updateIndicators [] ⟨"AAPL", [⟨"occ", "sell"⟩]⟩ 1).1
          ⟨"AAPL", [⟨"sma_strategy", "buy"⟩]⟩ 2).1
        "AAPL").map (fun r => (r.sma_strategy, r.occ))
      = some ("buy", "")) := by
  constructor
  · rfl
  · rfl

/-- C2 (modelled from the spec — no schema in `src/` has a transition
timestamp): the transition timestamp is set to `now` exactly when the
update's signal differs from the stored one or the ticker is new with a
signal supplied; an identical signal leaves it untouched (never refreshed or
cleared), so the same signal applied twice sets it on the first application
only; the last-modified timestamp advances on every update. -/
theorem C2_transition_timestamp_set_only_on_change :
    (∀ s now, (SpecModel.applyUpdate none (some s) now).transition = some now) ∧
    (∀ r s now, r.signal ≠ s →
      (SpecModel.applyUpdate (some r) (some s) now).transition = some now) ∧
    (∀ r s now, r.signal = s →
      (SpecModel.applyUpdate (some r) (some s) now).transition = r.transition) ∧
    (∀ prev s n1 n2,
      (SpecModel.applyUpdate (some (SpecModel.applyUpdate prev (some s) n1))
          (some s) n2).transition
        = (SpecModel.applyUpdate prev (some s) n1).transition) ∧
    (∀ prev u now, (SpecModel.applyUpdate prev u now).dateUpdated = now) := by
  refine ⟨?_, ?_, ?_, ?_, ?_⟩
  · intro s now
    simp [SpecModel.applyUpdate, SpecModel.transitionAfter]
  · intro r s now h
    simp [SpecModel.applyUpdate, SpecModel.transitionAfter, h]
  · intro r s now h
    simp [SpecModel.applyUpdate, SpecModel.transitionAfter, h]
  · intro prev s n1 n2
    simp [SpecModel.applyUpdate, SpecModel.transitionAfter]
  · intro prev u now
    rfl

/-- C2 witness: a changed signal stamps the transition, an unchanged one
carries the old stamp forward. -/
theorem C2_transition_timestamp_set_only_on_change_witness :
    (SpecModel.applyUpdate (some ⟨"sell", none, 0⟩) (some "buy") 5).transition
        = some 5 ∧
    (SpecModel.applyUpdate (some ⟨"buy", some 3, 4⟩) (some "buy") 9).transition
        = some 3 :=
  ⟨C2_transition_timestamp_set_only_on_change.2.1 ⟨"sell", none, 0⟩ "buy" 5
      (by decide),
   C2_transition_timestamp_set_only_on_change.2.2.1 ⟨"buy", some 3, 4⟩ "buy" 9 rfl⟩

/-- C4: the claim says an unknown indicator in a single-indicator payload is
rejected with a *client* error.  The rejection does happen before any
storage write (the table comes back unchanged), but `handleWebhook` answers
`http.StatusInternalServerError`: the status is 500, a server error, not a
4xx client error. -/
theorem C4_unknown_indicator_answers_500_not_4xx :
    (P2A.handleWebhookPost [] ⟨"AAPL", "bogus", "buy", ""⟩ 1).1 = [] ∧
    (P2A.handleWebhookPost [] ⟨"AAPL", "bogus", "buy", ""⟩ 1).2.status = 500 ∧
    ¬ (P2A.handleWebhookPost [] ⟨"AAPL", "bogus", "buy", ""⟩ 1).2.isClientError := by
  refine ⟨rfl, rfl, by decide⟩

/-- C4 amended: an unknown indicator in a single-indicator payload is
rejected with the `invalid indicator` error before any storage write — the
stored table is returned unchanged — and the HTTP response is a 500 server
error wrapping that message. -/
theorem C4_unknown_indicator_rejected_before_write (t : P2A.Table)
    (alert : P2A.TradingViewAlert) (now : Nat)
    (h : P2A.colOfIndicator alert.indicator = none) :
    P2A.updateIndicator t alert now
        = Except.error ("invalid indicator: " ++ alert.indicator) ∧
    P2A.handleWebhookPost t alert now
        = (t, ⟨500, "Failed to update database: "
                ++ ("invalid indicator: " ++ alert.indicator)⟩) := by
  constructor
  · simp [P2A.updateIndicator, h]
  · simp [P2A.handleWebhookPost, P2A.updateIndicator, h]

/-- C4 amended witness: the `bogus` indicator is rejected with the table
untouched and a 500 response. -/
theorem C4_unknown_indicator_rejected_before_write_witness :
    P2A.updateIndicator [] ⟨"AAPL", "bogus", "buy", ""⟩ 1
        = Except.error ("invalid indicator: " ++ "bogus") ∧
    P2A.handleWebhookPost [] ⟨"AAPL", "bogus", "buy", ""⟩ 1
        = ([], ⟨500, "Failed to update database: "
                ++ ("invalid indicator: " ++ "bogus")⟩) :=
  C4_unknown_indicator_rejected_before_write [] ⟨"AAPL", "bogus", "buy", ""⟩ 1 rfl

/-- C7: the `analystPriceTarget` field parses totally: a numeric literal
yields its value; JSON `null`, the empty string, `"false"`, and every other
non-numeric token normalize to absent without a parse error; and with a
non-empty ticker and signal such a payload is still answered 200 with the
numeric column stored as NULL. -/
theorem C7_price_target_parses_totally :
    (∀ q, MainA.NullableFloat64.unmarshalJSON (JsonValue.num q)
        = Except.ok (some q)) ∧
    (∀ v, (∀ q, v ≠ JsonValue.num q) →
      MainA.NullableFloat64.unmarshalJSON v = Except.ok none) ∧
    (∀ (t : MainA.Table) (r : MainA.RawAlert) (now : Nat),
      r.ticker ≠ "" → r.signal ≠ "" →
      (∀ q, r.analystPriceTarget ≠ JsonValue.num q) →
      (MainA.handleWebhookPostRaw t r now).2
          = ⟨200, "Webhook processed successfully"⟩ ∧
      MainA.lookup (MainA.handleWebhookPostRaw t r now).1 r.ticker
          = some ⟨r.signal, none, now⟩) := by
  have h2 : ∀ v, (∀ q, v ≠ JsonValue.num q) →
      MainA.NullableFloat64.unmarshalJSON v = Except.ok none := by
    intro v h
    cases v with
    | null => simp [MainA.NullableFloat64.unmarshalJSON]
    | str s =>
      by_cases hs : s = ""
      · simp [MainA.NullableFloat64.unmarshalJSON, hs]
      · simp [MainA.NullableFloat64.unmarshalJSON, hs, jsonUnmarshalFloat64]
    | num q => exact absurd rfl (h q)
    | boolean b => simp [MainA.NullableFloat64.unmarshalJSON, jsonUnmarshalFloat64]
    | arr => simp [MainA.NullableFloat64.unmarshalJSON, jsonUnmarshalFloat64]
    | obj => simp [MainA.NullableFloat64.unmarshalJSON, jsonUnmarshalFloat64]
  refine ⟨?_, h2, ?_⟩
  · intro q
    simp [MainA.NullableFloat64.unmarshalJSON, jsonUnmarshalFloat64]
  · intro t r now ht hs hq
    have hdec : MainA.decodeAlert r = Except.ok ⟨r.ticker, r.signal, none⟩ := by
      unfold MainA.decodeAlert
      rw [h2 r.analystPriceTarget hq]
    have hcond : ¬ (r.ticker = "" ∨ r.signal = "") := not_or.mpr ⟨ht, hs⟩
    have hraw : MainA.handleWebhookPostRaw t r now
        = MainA.handleWebhookPost t ⟨r.ticker, r.signal, none⟩ now := by
      unfold MainA.handleWebhookPostRaw
      rw [hdec]
    have hpost : MainA.handleWebhookPost t ⟨r.ticker, r.signal, none⟩ now
        = (MainA.upsert t r.ticker r.signal none now,
           ⟨200, "Webhook processed successfully"⟩) := by
      unfold MainA.handleWebhookPost
      exact if_neg hcond
    rw [hraw, hpost]
    exact ⟨rfl, MainA.lookupA_upsert_self t r.ticker r.signal none now⟩

/-- C7 witness: `analystPriceTarget:"false"` with a valid ticker and signal
is answered 200 and stored with a NULL price target. -/
theorem C7_price_target_parses_totally_witness :
    (MainA.handleWebhookPostRaw [] ⟨"AAPL", "buy", JsonValue.str "false"⟩ 7).2
        = ⟨200, "Webhook processed successfully"⟩ ∧
    MainA.lookup
        (MainA.handleWebhookPostRaw [] ⟨"AAPL", "buy", JsonValue.str "false"⟩ 7).1
        "AAPL"
      = some ⟨"buy", none, 7⟩ :=
  C7_price_target_parses_totally.2.2 [] ⟨"AAPL", "buy", JsonValue.str "false"⟩ 7
    (by decide) (by decide) (fun q h => JsonValue.noConfusion h)

/-- C8: in a multi-signal payload every pair with a disallowed indicator
name is skipped — the resulting table equals the one for the payload with
those pairs filtered out — while each skip is logged as an
`Invalid indicator` warning; the pairs with allowed names are still applied
(the merge always commits a row for the ticker), so one unrecognized entry
never fails the whole update. -/
theorem C8_invalid_entries_skipped_with_warning (t : MainB.Table)
    (alert : MainB.TradingViewAlert) (now : Nat) :
    (MainB.updateIndicators t alert now).1
      = (MainB.updateIndicators t
          ⟨alert.ticker,
           alert.signals.filter (fun s => MainB.allowedIndicators s.indicator)⟩
          now).1 ∧
    (MainB.updateIndicators t alert now).2
      = (alert.signals.filter
          (fun s => ¬ MainB.allowedIndicators s.indicator)).map
          (fun s => "Invalid indicator: " ++ s.indicator) ∧
    MainB.lookup (MainB.updateIndicators t alert now).1 alert.ticker
      = some (MainB.insertRow
          (MainB.applySignals alert.signals MainB.defaultValues).1 now) := by
  refine ⟨?_, ?_, ?_⟩
  · simp only [MainB.updateIndicators]
    rw [MainB.applySignals_filter]
  · simp only [MainB.updateIndicators]
    exact MainB.applySignals_warnings _ _
  · simp only [MainB.updateIndicators]
    exact MainB.lookupB_upsert_self _ _ _ _

/-- C9: applying the same valid update twice yields the same record as
applying it once, except that the last-modified timestamp advances: proved
for `P2A.updateIndicator` (single indicator) and `MainB.updateIndicators`
(multi signal), with every other ticker's row untouched; the transition
timestamp — present only in the spec's model, no schema in `src/` stores
one — is unchanged by the second application. -/
theorem C9_reapplying_update_changes_only_timestamp :
    (∀ (t : P2A.Table) (alert : P2A.TradingViewAlert) (c : P2A.Col)
        (n1 n2 : Nat),
      P2A.colOfIndicator alert.indicator = some c →
      ∃ t1 t2, P2A.updateIndicator t alert n1 = Except.ok t1 ∧
        P2A.updateIndicator t1 alert n2 = Except.ok t2 ∧
        P2A.lookup t2 alert.ticker
          = (P2A.lookup t1 alert.ticker).map
              (fun r => { r with date_updated := n2 }) ∧
        (∀ k', k' ≠ alert.ticker → P2A.lookup t2 k' = P2A.lookup t1 k')) ∧
    (∀ (t : MainB.Table) (alert : MainB.TradingViewAlert) (n1 n2 : Nat),
      MainB.lookup
          (MainB.updateIndicators
            (MainB.updateIndicators t alert n1).1 alert n2).1 alert.ticker
        = (MainB.lookup (MainB.updateIndicators t alert n1).1
            alert.ticker).map (fun r => { r with date_updated := n2 }) ∧
      (∀ k', k' ≠ alert.ticker →
        MainB.lookup
            (MainB.updateIndicators
              (MainB.updateIndicators t alert n1).1 alert n2).1 k'
          = MainB.lookup (MainB.updateIndicators t alert n1).1 k')) ∧
    (∀ prev s n1 n2,
      (SpecModel.applyUpdate
          (some (SpecModel.applyUpdate prev (some s) n1)) (some s) n2).transition
        = (SpecModel.applyUpdate prev (some s) n1).transition) := by
  refine ⟨?_, ?_, ?_⟩
  · intro t alert c n1 n2 hc
    refine ⟨P2A.upsert t alert.ticker c alert.signal n1,
      P2A.upsert (P2A.upsert t alert.ticker c alert.signal n1)
        alert.ticker c alert.signal n2,
      by simp [P2A.updateIndicator, hc], by simp [P2A.updateIndicator, hc],
      ?_, ?_⟩
    · rw [P2A.lookupP2A_upsert_self, P2A.lookupP2A_upsert_self]
      exact congrArg some (P2A.reapply_row _ c alert.signal n1 n2)
    · intro k' hk'
      rw [P2A.lookupP2A_upsert_other _ _ _ _ _ _ hk']
  · intro t alert n1 n2
    constructor
    · simp only [MainB.updateIndicators]
      rw [MainB.lookupB_upsert_self, MainB.lookupB_upsert_self]
      rfl
    · intro k' hk'
      simp only [MainB.updateIndicators]
      rw [MainB.lookupB_upsert_other _ _ _ _ _ hk']
  · intro prev s n1 n2
    simp [SpecModel.applyUpdate, SpecModel.transitionAfter]

/-- C9 witness: re-sending `{AAPL, occ, buy}` leaves the record unchanged up
to the advanced last-modified timestamp. -/
theorem C9_reapplying_update_changes_only_timestamp_witness :
    ∃ t1 t2, P2A.updateIndicator [] ⟨"AAPL", "occ", "buy", ""⟩ 1
        = Except.ok t1 ∧
      P2A.updateIndicator t1 ⟨"AAPL", "occ", "buy", ""⟩ 2 = Except.ok t2 ∧
      P2A.lookup t2 "AAPL"
        = (P2A.lookup t1 "AAPL").map (fun r => { r with date_updated := 2 }) ∧
      (∀ k', k' ≠ "AAPL" → P2A.lookup t2 k' = P2A.lookup t1 k') :=
  C9_reapplying_update_changes_only_timestamp.1 [] ⟨"AAPL", "occ", "buy", ""⟩
    P2A.Col.occ 1 2 rfl

/-- C10: in the single-signal variant, a POST with a non-empty ticker but an
empty `signal` is answered 400 (`Missing ticker or signal`) before the
upsert runs: the stored table is returned unchanged, and 400 is a client
error. -/
theorem C10_empty_signal_rejected_with_400 (t : MainA.Table) (ticker : String)
    (pt : Option ℚ) (now : Nat) (h : ticker ≠ "") :
    MainA.handleWebhookPost t ⟨ticker, "", pt⟩ now
        = (t, ⟨400, "Missing ticker or signal"⟩) ∧
    (⟨400, "Missing ticker or signal"⟩ : HttpResponse).isClientError := by
  constructor
  · simp [MainA.handleWebhookPost]
  · decide

/-- C3: the claim says reconciliations for one ticker are serialized by a
per-ticker mutual exclusion, so N concurrent calls for a new ticker leave
exactly one sheet row.  The live `updateGoogleSheet` takes no lock (the
`getTickerLock` registry and the locked reconciler are commented out), and
its scan and write are separate sheet operations: interleaving two calls for
the new ticker `AAPL` as scan, scan, write, write makes both calls observe
`not found` and both append — the sheet ends with two rows for the ticker. -/
theorem C3_unlocked_interleaving_duplicates_row :
    Recon.countTickerRows
      (Recon.runSched []
        [⟨"AAPL", P2B.rowData "AAPL" ⟨"buy", "", "", "", "", "", "", "", "", 1⟩,
          none, false⟩,
         ⟨"AAPL", P2B.rowData "AAPL" ⟨"buy", "", "", "", "", "", "", "", "", 1⟩,
          none, false⟩]
        [0, 1, 0, 1]).1
      "AAPL" = 2 := by
  rfl

/-- C3 amended: the live reconciler has no per-ticker lock and its
interleaved scan-then-write steps can duplicate a new ticker's row
(`C3_unlocked_interleaving_duplicates_row`); under the per-ticker mutual
exclusion of the commented-out `getTickerLock` (each call's discovery+write
executed as one critical section), any `n ≥ 1` reconciliation calls for a
ticker not yet in the sheet append its row exactly once and then keep
overwriting it in place, leaving exactly one row for that ticker. -/
theorem C3_serialized_reconciliation_single_row (t : P2B.Table) (k : String)
    (r : P2B.Security) (sheet : List (List String)) (n : Nat)
    (hr : P2B.lookup t k = some r)
    (h0 : Recon.countTickerRows sheet k = 0) (hn : 1 ≤ n) :
    Recon.runSerialized t k n sheet = Except.ok (sheet ++ [P2B.rowData k r]) ∧
    Recon.countTickerRows (sheet ++ [P2B.rowData k r]) k = 1 := by
  constructor
  · obtain ⟨m, rfl⟩ : ∃ m, n = m + 1 := ⟨n - 1, by omega⟩
    unfold Recon.runSerialized
    rw [Recon.updateGoogleSheet_append t k r sheet hr h0]
    exact Recon.runSerialized_stable t k r sheet m hr h0
  · unfold Recon.countTickerRows at h0 ⊢
    rw [List.countP_append]
    simp [h0, Recon.matchesTicker_rowData]

/-- C3 amended witness: three serialized reconciliations of a fresh `AAPL`
record against an empty sheet leave exactly one `AAPL` row. -/
theorem C3_serialized_reconciliation_single_row_witness :
    Recon.runSerialized
        [("AAPL", ⟨"buy", "", "", "", "", "", "", "", "", 1⟩)] "AAPL" 3 []
      = Except.ok
          [P2B.rowData "AAPL" ⟨"buy", "", "", "", "", "", "", "", "", 1⟩] ∧
    Recon.countTickerRows
        ([] ++ [P2B.rowData "AAPL" ⟨"buy", "", "", "", "", "", "", "", "", 1⟩])
        "AAPL" = 1 :=
  C3_serialized_reconciliation_single_row
    [("AAPL", ⟨"buy", "", "", "", "", "", "", "", "", 1⟩)] "AAPL"
    ⟨"buy", "", "", "", "", "", "", "", "", 1⟩ [] 3 rfl rfl (by decide)

/-- C5: the claim says the reconciler normalizes the ticker identity (trim,
case-fold) before comparing against the sheet's identity column.  The live
`updateGoogleSheet` compares the raw strings
(`fmt.Sprintf("%v", r[0]) == ticker`): for local ticker `AAPL` and a sheet
row `aapl` — equal after normalization — the code misses the match and
appends a duplicate row, where the spec-worded normalizing reconciler
overwrites the existing row in place. -/
theorem C5_raw_comparison_misses_normalized_match :
    SpecModel.normalizeTicker "aapl" = SpecModel.normalizeTicker "AAPL" ∧
    P2B.updateGoogleSheet
        [("AAPL", ⟨"buy", "", "", "", "", "", "", "", "", 1⟩)] "AAPL" [["aapl"]]
      = Except.ok
          [["aapl"],
           P2B.rowData "AAPL" ⟨"buy", "", "", "", "", "", "", "", "", 1⟩] ∧
    SpecModel.updateGoogleSheetNormalized
        [("AAPL", ⟨"buy", "", "", "", "", "", "", "", "", 1⟩)] "AAPL" [["aapl"]]
      = Except.ok
          [P2B.rowData "AAPL" ⟨"buy", "", "", "", "", "", "", "", "", 1⟩] := by
  refine ⟨by decide, rfl, by rfl⟩

/-- C5 amended: the reconciler compares the raw ticker string — no trim or
case-fold — against the sheet's identity column; if a row matches it
overwrites that row's columns in place at the discovered index, otherwise it
appends one new row carrying the full column set. -/
theorem C5_reconciler_update_in_place_or_append (t : P2B.Table) (k : String)
    (r : P2B.Security) (sheet : List (List String))
    (hr : P2B.lookup t k = some r) :
    (sheet.findIdx? (Recon.matchesTicker k) = none →
      P2B.updateGoogleSheet t k sheet
        = Except.ok (sheet ++ [P2B.rowData k r])) ∧
    (∀ j, sheet.findIdx? (Recon.matchesTicker k) = some j →
      P2B.updateGoogleSheet t k sheet
        = Except.ok (sheet.set j (P2B.rowData k r))) := by
  constructor
  · intro hnone
    unfold P2B.updateGoogleSheet
    rw [hr]
    simp [P2B.scanRows_eq_findIdx k sheet 0, hnone]
  · intro j hsome
    unfold P2B.updateGoogleSheet
    rw [hr]
    simp only [P2B.scanRows_eq_findIdx k sheet 0, hsome]
    have hne : ¬ ((j : Int) + 2 = -1) := by omega
    rw [if_neg hne]
    have hidx : ((j : Int) + 2 - 2).toNat = j := by omega
    rw [hidx]

/-- C5 amended witness: a raw match is overwritten in place, a sheet without
one gets the row appended. -/
theorem C5_reconciler_update_in_place_or_append_witness :
    P2B.updateGoogleSheet
        [("AAPL", ⟨"buy", "", "", "", "", "", "", "", "", 1⟩)] "AAPL"
        [["GOOG"], ["AAPL", "old"]]
      = Except.ok
          [["GOOG"],
           P2B.rowData "AAPL" ⟨"buy", "", "", "", "", "", "", "", "", 1⟩] :=
  (C5_reconciler_update_in_place_or_append
      [("AAPL", ⟨"buy", "", "", "", "", "", "", "", "", 1⟩)] "AAPL"
      ⟨"buy", "", "", "", "", "", "", "", "", 1⟩
      [["GOOG"], ["AAPL", "old"]] rfl).2 1 (by decide)

/-- C6: when the local merge commits and the subsequent sheet sync fails,
the handler keeps the merged table — exactly the table a successful sync
would leave, never rolled back — and answers with the Google-Sheet 500 body,
which can never equal any local-database 500 body. -/
theorem C6_sync_failure_keeps_local_state (t t2 : P2B.Table)
    (alert : P2B.TradingViewAlert) (now : Nat)
    (f : P2B.Table → String → Except String Unit) (e : String)
    (hdb : P2B.updateIndicator t alert now = Except.ok t2)
    (hsheet : f t2 alert.ticker = Except.error e) :
    P2B.handleWebhookPost t alert now f
        = (t2, ⟨500, "Failed to update Google Sheet: " ++ e⟩) ∧
    (P2B.handleWebhookPost t alert now f).1
        = (P2B.handleWebhookPost t alert now
            (fun _ _ => Except.ok ())).1 ∧
    (∀ e', ("Failed to update Google Sheet: " ++ e : String)
        ≠ "Failed to update database: " ++ e') := by
  refine ⟨?_, ?_, fun e' => sheetBody_ne_databaseBody e e'⟩
  · simp [P2B.handleWebhookPost, hdb, hsheet]
  · simp [P2B.handleWebhookPost, hdb, hsheet]

/-- C6 witness: a failing sheet sync after a fresh successful merge keeps
the merged row and answers with the sheet-failure body. -/
theorem C6_sync_failure_keeps_local_state_witness :
    P2B.handleWebhookPost [] ⟨"AAPL", "sma_strategy", "buy", ""⟩ 1
        (fun _ _ => Except.error "quota exceeded")
      = ([("AAPL", ⟨"buy", "", "", "", "", "", "", "", "", 1⟩)],
         ⟨500, "Failed to update Google Sheet: " ++ "quota exceeded"⟩) :=
  (C6_sync_failure_keeps_local_state []
    [("AAPL", ⟨"buy", "", "", "", "", "", "", "", "", 1⟩)]
    ⟨"AAPL", "sma_strategy", "buy", ""⟩ 1
    (fun _ _ => Except.error "quota exceeded") "quota exceeded" rfl rfl).1

/-- C10 witness: the empty-signal rejection at a concrete table and ticker. -/
theorem C10_empty_signal_rejected_with_400_witness :
    MainA.handleWebhookPost [("MSFT", ⟨"buy", none, 3⟩)] ⟨"AAPL", "", none⟩ 7
        = ([("MSFT", ⟨"buy", none, 3⟩)], ⟨400, "Missing ticker or signal"⟩) ∧
    (⟨400, "Missing ticker or signal"⟩ : HttpResponse).isClientError :=
  C10_empty_signal_rejected_with_400 [("MSFT", ⟨"buy", none, 3⟩)] "AAPL" none 7
    (by decide)

end TV
